import Mathlib

/-
Shallow embedding of the render-callback, stream-format and error-conversion
code of the coreaudio-rs repository, together with theorems settling the
frozen claims about it.

Conventions used throughout:
  - u32 fields of native structures are modelled as `Nat`; where the Rust
    code performs u32 arithmetic that can wrap (`as u32` casts and u32
    multiplication), the embedding applies `% 4294967296` explicitly.
  - `OSStatus` (i32) values are modelled as `Int`.
  - `f64` sample rates are only ever copied, never computed with, so a
    sample rate is modelled by its 64-bit pattern as a `Nat`.
  - raw pointers are modelled as `Nat` identifiers.
-/

namespace CoreaudioRs

/-! ## Linear PCM flags

Bit values from src/src/audio_unit/audio_format.rs (enum LinearPCMFlag,
lines 140-151); the same bit values are carried by the bitflags struct
`LinearPcmFlags` that src/src/audio_unit/stream_format.rs and
src/src/audio_unit/sample_format.rs name (IS_FLOAT, IS_SIGNED_INTEGER,
IS_PACKED, IS_NON_INTERLEAVED, ...). -/

def IS_FLOAT : Nat := 1

def IS_BIG_ENDIAN : Nat := 2

def IS_SIGNED_INTEGER : Nat := 4

def IS_PACKED : Nat := 8

def IS_ALIGNED_HIGH : Nat := 16

def IS_NON_INTERLEAVED : Nat := 32

def IS_NON_MIXABLE : Nat := 64

def FLAGS_SAMPLE_FRACTION_SHIFT : Nat := 7

def FLAGS_SAMPLE_FRACTION_MASK : Nat := 8064

/-- Union of all bits named by the `LinearPcmFlags` bitflags declaration:
1 ||| 2 ||| 4 ||| 8 ||| 16 ||| 32 ||| 64 ||| 7 ||| 8064 = 8191.
`from_bits_truncate` keeps exactly these bits. -/
def allLinearPcmBits : Nat := 8191

/-- bitflags `contains`: every bit of `c` is set in `f`. -/
def containsFlag (f c : Nat) : Bool := f &&& c == c

/-- kAudioFormatLinearPCM, the format identifier for Linear PCM
(src/src/audio_unit/audio_format.rs line 56: 1819304813). -/
def kAudioFormatLinearPCM : Nat := 1819304813

/-- The format identifiers of the non-LinearPCM `AudioFormat` variants
(src/src/audio_unit/audio_format.rs lines 57-91). `from_asbd` treats every
one of them the same way: not supported. -/
def otherAudioFormatIds : List Nat :=
  [1633889587, 1667326771, 1768775988, 1633772320, 1667591280, 1752594531,
   1953986161, 1296122675, 1296122678, 1970037111, 1634492791, 1363430723,
   1363430706, 1365470320, 778924081, 778924082, 778924083, 1953066341,
   1835623529, 1634760307, 1634492771, 1633772392, 1633772396, 1633772389,
   1633772390, 1633772391, 1633772400, 1633772403, 1935764850, 1935767394,
   1096107074, 1768710755, 1836253201, 1836253233, 1634038579]

/-! ## SampleFormat (src/src/audio_unit/sample_format.rs) -/

/-- Dynamic representation of the audio data sample format
(src/src/audio_unit/sample_format.rs lines 5-10). -/
inductive SampleFormat where
  | F32
  | I32
  | I16
  | I8
deriving DecidableEq

/-- SampleFormat::does_match_flags (src/src/audio_unit/sample_format.rs
lines 13-22). -/
def does_match_flags (sf : SampleFormat) (flags : Nat) : Bool :=
  let is_float := containsFlag flags IS_FLOAT
  let is_signed_integer := containsFlag flags IS_SIGNED_INTEGER
  match sf with
  | .F32 => is_float && !is_signed_integer
  | .I32 | .I16 | .I8 => is_signed_integer && !is_float

/-- SampleFormat::size_in_bytes (src/src/audio_unit/sample_format.rs
lines 51-59). -/
def size_in_bytes (sf : SampleFormat) : Nat :=
  match sf with
  | .F32 => 4
  | .I32 => 4
  | .I16 => 2
  | .I8 => 1

/-- SampleFormat::from_flags_and_bits_per_sample
(src/src/audio_unit/sample_format.rs lines 24-49). -/
def from_flags_and_bits_per_sample (flags : Nat) (bits_per_sample : Nat) :
    Option SampleFormat :=
  if !containsFlag flags IS_PACKED then none
  else if containsFlag flags IS_FLOAT then
    match bits_per_sample with
    | 32 => some .F32
    | _ => none
  else if containsFlag flags IS_SIGNED_INTEGER then
    match bits_per_sample with
    | 8 => some .I8
    | 16 => some .I16
    | 32 => some .I32
    | _ => none
  else none

/-- Modelled from the spec: `SampleFormat::from_flags_and_bytes_per_frame`
is called by `StreamFormat::from_asbd` (src/src/audio_unit/stream_format.rs
line 89) but its definition is absent from src/. The spec (section 4.1)
says the sample format is inferred "from the float/signed-integer/packed
flag combination and declared bit width", failing for "an unrecognized
flag/width pairing"; this mirrors src's `from_flags_and_bits_per_sample`
with the declared width taken in bytes, as the parameter name at the call
site dictates. -/
def from_flags_and_bytes_per_frame (flags : Nat) (bytes_per_frame : Nat) :
    Option SampleFormat :=
  if !containsFlag flags IS_PACKED then none
  else if containsFlag flags IS_FLOAT then
    match bytes_per_frame with
    | 4 => some .F32
    | _ => none
  else if containsFlag flags IS_SIGNED_INTEGER then
    match bytes_per_frame with
    | 1 => some .I8
    | 2 => some .I16
    | 4 => some .I32
    | _ => none
  else none

/-! ## AudioFormat decode/encode (LinearPCM fragment)

The `AudioFormat` used by src/src/audio_unit/stream_format.rs carries a
`LinearPcmFlags` bitset in its `LinearPCM` variant and offers
`from_format_and_flag` / `as_format_and_flag`; that revision of
audio_format.rs is absent from src/ (src/ holds the older enum revision,
which pins the identifier constants used here). -/

/-- Decoded native audio format, as far as `from_asbd` distinguishes it:
Linear PCM with its flag bits, or one of the other known formats. -/
inductive AudioFormatTag where
  | linearPCM (flags : Nat)
  | otherFormat (id : Nat)
deriving DecidableEq

/-- Modelled from the spec: the newer `AudioFormat::from_format_and_flag`
(decoder of the native format identifier + flags) is absent from src/.
The spec (section 4.1) says ingestion "decodes the native format
identifier + flags" and "succeeds only for Linear-PCM"; the identifier
table is src/src/audio_unit/audio_format.rs lines 54-94, and the flag bits
of the Linear PCM variant are truncated to the declared bit set
(`from_bits_truncate`). -/
def from_format_and_flag (format : Nat) (flag : Nat) : Option AudioFormatTag :=
  if format = kAudioFormatLinearPCM then
    some (.linearPCM (flag &&& allLinearPcmBits))
  else if otherAudioFormatIds.contains format then
    some (.otherFormat format)
  else none

/-- Modelled from the spec: the newer `AudioFormat::as_format_and_flag`
for the `LinearPCM` variant (the only one `to_asbd` constructs) is absent
from src/; it returns the Linear PCM identifier together with the flag
bits. -/
def as_format_and_flag (flags : Nat) : Nat × Option Nat :=
  (kAudioFormatLinearPCM, some flags)

/-! ## StreamFormat (src/src/audio_unit/stream_format.rs) -/

/-- StreamFormat (src/src/audio_unit/stream_format.rs lines 37-52).
`sample_rate` is the 64-bit pattern of the f64 field; `flags` is the
`LinearPcmFlags` bitset; `channels` is a u32. -/
structure StreamFormat where
  sample_rate : Nat
  sample_format : SampleFormat
  flags : Nat
  channels : Nat
deriving DecidableEq

/-- AudioStreamBasicDescription, the OS native descriptor. `mSampleRate`
is the 64-bit pattern of the f64 field; all other fields are u32. -/
structure AudioStreamBasicDescription where
  mSampleRate : Nat
  mFormatID : Nat
  mFormatFlags : Nat
  mBytesPerPacket : Nat
  mFramesPerPacket : Nat
  mBytesPerFrame : Nat
  mChannelsPerFrame : Nat
  mBitsPerChannel : Nat
  mReserved : Nat
deriving DecidableEq

/-! ## Error types (src/src/error.rs) -/

/-- audio::Error (src/src/error.rs lines 21-31). -/
inductive AudioErr where
  | unimplemented
  | fileNotFound
  | filePermission
  | tooManyFilesOpen
  | badFilePath
  | param
  | memFull
  | unknown
deriving DecidableEq

/-- audio_codec::Error (src/src/error.rs lines 81-92). -/
inductive AudioCodecErr where
  | unspecified
  | unknownProperty
  | badPropertySize
  | illegalOperation
  | unsupportedFormat
  | state
  | notEnoughBufferSpace
  | badData
  | unknown
deriving DecidableEq

/-- audio_format::Error (src/src/error.rs lines 148-157). -/
inductive AudioFormatErr where
  | unspecified
  | unsupportedProperty
  | badPropertySize
  | badSpecifierSize
  | unsupportedDataFormat
  | unknownFormat
  | unknown
deriving DecidableEq

/-- audio_unit::Error (src/src/error.rs lines 213-233). -/
inductive AudioUnitErr where
  | invalidProperty
  | invalidParameter
  | invalidElement
  | noConnection
  | failedInitialization
  | tooManyFramesToProcess
  | invalidFile
  | formatNotSupported
  | uninitialized
  | invalidScope
  | propertyNotWritable
  | cannotDoInCurrentContext
  | invalidPropertyValue
  | propertyNotInUse
  | initialized
  | invalidOfflineRender
  | unauthorized
  | unknown
deriving DecidableEq

/-- Top-level Error (src/src/error.rs lines 308-323). -/
inductive Error where
  | unspecified
  | systemSoundClientMessageTimedOut
  | noMatchingDefaultAudioUnitFound
  | renderCallbackBufferFormatDoesNotMatchAudioUnitStreamFormat
  | noKnownSubtype
  | nonInterleavedInputOnlySupportsMono
  | unsupportedSampleRate
  | unsupportedStreamFormat
  | audioE (e : AudioErr)
  | codecE (e : AudioCodecErr)
  | formatE (e : AudioFormatErr)
  | unitE (e : AudioUnitErr)
  | unknownE (status : Int)
deriving DecidableEq

/-! OSStatus constants imported by src/src/error.rs from the bindings
crates (Apple SDK values; four-character codes written in hexadecimal). -/

def kAudioServicesSystemSoundUnspecifiedError : Int := -1500

def kAudioServicesSystemSoundClientTimedOutError : Int := -1501

def kAudio_UnimplementedError : Int := -4

def kAudio_FileNotFoundError : Int := -43

def kAudio_FilePermissionError : Int := -54

def kAudio_TooManyFilesOpenError : Int := -42

def kAudio_BadFilePathError : Int := 0x21707468

def kAudio_ParamError : Int := -50

def kAudio_MemFullError : Int := -108

def kAudioCodecUnspecifiedError : Int := 0x77686174

def kAudioCodecUnknownPropertyError : Int := 0x77686F3F

def kAudioCodecBadPropertySizeError : Int := 0x2173697A

def kAudioCodecIllegalOperationError : Int := 0x6E6F7065

def kAudioCodecUnsupportedFormatError : Int := 0x21646174

def kAudioCodecStateError : Int := 0x21737474

def kAudioCodecNotEnoughBufferSpaceError : Int := 0x21627566

def kAudioCodecBadDataError : Int := 0x62616461

def kAudioFormatUnspecifiedError : Int := 0x77686174

def kAudioFormatUnsupportedPropertyError : Int := 0x70726F70

def kAudioFormatBadPropertySizeError : Int := 0x2173697A

def kAudioFormatBadSpecifierSizeError : Int := 0x21737063

def kAudioFormatUnsupportedDataFormatError : Int := 0x666D743F

def kAudioFormatUnknownFormatError : Int := 0x21666D74

def kAudioUnitErr_InvalidProperty : Int := -10879

def kAudioUnitErr_InvalidParameter : Int := -10878

def kAudioUnitErr_InvalidElement : Int := -10877

def kAudioUnitErr_NoConnection : Int := -10876

def kAudioUnitErr_FailedInitialization : Int := -10875

def kAudioUnitErr_TooManyFramesToProcess : Int := -10874

def kAudioUnitErr_InvalidFile : Int := -10871

def kAudioUnitErr_FormatNotSupported : Int := -10868

def kAudioUnitErr_Uninitialized : Int := -10867

def kAudioUnitErr_InvalidScope : Int := -10866

def kAudioUnitErr_PropertyNotWritable : Int := -10865

def kAudioUnitErr_CannotDoInCurrentContext : Int := -10863

def kAudioUnitErr_InvalidPropertyValue : Int := -10851

def kAudioUnitErr_PropertyNotInUse : Int := -10850

def kAudioUnitErr_Initialized : Int := -10849

def kAudioUnitErr_InvalidOfflineRender : Int := -10848

def kAudioUnitErr_Unauthorized : Int := -10847

/-- audio::Error::from_os_status (src/src/error.rs lines 34-46). -/
def audio_from_os_status (os_status : Int) : Except AudioErr Unit :=
  if os_status = 0 then .ok ()
  else if os_status = kAudio_UnimplementedError then .error .unimplemented
  else if os_status = kAudio_FileNotFoundError then .error .fileNotFound
  else if os_status = kAudio_FilePermissionError then .error .filePermission
  else if os_status = kAudio_TooManyFilesOpenError then .error .tooManyFilesOpen
  else if os_status = kAudio_BadFilePathError then .error .badFilePath
  else if os_status = kAudio_ParamError then .error .param
  else if os_status = kAudio_MemFullError then .error .memFull
  else .error .unknown

/-- audio_codec::Error::from_os_status (src/src/error.rs lines 95-112). -/
def audio_codec_from_os_status (os_status : Int) : Except AudioCodecErr Unit :=
  if os_status = 0 then .ok ()
  else if os_status = kAudioCodecUnspecifiedError then .error .unspecified
  else if os_status = kAudioCodecUnknownPropertyError then .error .unknownProperty
  else if os_status = kAudioCodecBadPropertySizeError then .error .badPropertySize
  else if os_status = kAudioCodecIllegalOperationError then .error .illegalOperation
  else if os_status = kAudioCodecUnsupportedFormatError then .error .unsupportedFormat
  else if os_status = kAudioCodecStateError then .error .state
  else if os_status = kAudioCodecNotEnoughBufferSpaceError then .error .notEnoughBufferSpace
  else if os_status = kAudioCodecBadDataError then .error .badData
  else .error .unknown

/-- audio_format::Error::from_os_status (src/src/error.rs lines 160-175). -/
def audio_format_from_os_status (os_status : Int) : Except AudioFormatErr Unit :=
  if os_status = 0 then .ok ()
  else if os_status = kAudioFormatUnspecifiedError then .error .unspecified
  else if os_status = kAudioFormatUnsupportedPropertyError then .error .unsupportedProperty
  else if os_status = kAudioFormatBadPropertySizeError then .error .badPropertySize
  else if os_status = kAudioFormatBadSpecifierSizeError then .error .badSpecifierSize
  else if os_status = kAudioFormatUnsupportedDataFormatError then .error .unsupportedDataFormat
  else if os_status = kAudioFormatUnknownFormatError then .error .unknownFormat
  else .error .unknown

/-- audio_unit::Error::from_os_status (src/src/error.rs lines 236-271).
Note: unlike its three siblings this match has no `0 => Ok(())` arm. -/
def audio_unit_from_os_status (os_status : Int) : Except AudioUnitErr Unit :=
  if os_status = kAudioUnitErr_InvalidProperty then .error .invalidProperty
  else if os_status = kAudioUnitErr_InvalidParameter then .error .invalidParameter
  else if os_status = kAudioUnitErr_InvalidElement then .error .invalidElement
  else if os_status = kAudioUnitErr_NoConnection then .error .noConnection
  else if os_status = kAudioUnitErr_FailedInitialization then .error .failedInitialization
  else if os_status = kAudioUnitErr_TooManyFramesToProcess then .error .tooManyFramesToProcess
  else if os_status = kAudioUnitErr_InvalidFile then .error .invalidFile
  else if os_status = kAudioUnitErr_FormatNotSupported then .error .formatNotSupported
  else if os_status = kAudioUnitErr_Uninitialized then .error .uninitialized
  else if os_status = kAudioUnitErr_InvalidScope then .error .invalidScope
  else if os_status = kAudioUnitErr_PropertyNotWritable then .error .propertyNotWritable
  else if os_status = kAudioUnitErr_CannotDoInCurrentContext then .error .cannotDoInCurrentContext
  else if os_status = kAudioUnitErr_InvalidPropertyValue then .error .invalidPropertyValue
  else if os_status = kAudioUnitErr_PropertyNotInUse then .error .propertyNotInUse
  else if os_status = kAudioUnitErr_Initialized then .error .initialized
  else if os_status = kAudioUnitErr_InvalidOfflineRender then .error .invalidOfflineRender
  else if os_status = kAudioUnitErr_Unauthorized then .error .unauthorized
  else .error .unknown

/-- Error::from_os_status (src/src/error.rs lines 327-358). -/
def error_from_os_status (os_status : Int) : Except Error Unit :=
  if os_status = 0 then .ok ()
  else if os_status = kAudioServicesSystemSoundUnspecifiedError then .error .unspecified
  else if os_status = kAudioServicesSystemSoundClientTimedOutError then
    .error .systemSoundClientMessageTimedOut
  else
    match audio_from_os_status os_status with
    | .ok () => .ok ()
    | .error .unknown =>
      match audio_codec_from_os_status os_status with
      | .ok () => .ok ()
      | .error .unknown =>
        match audio_format_from_os_status os_status with
        | .ok () => .ok ()
        | .error .unknown =>
          match audio_unit_from_os_status os_status with
          | .ok () => .ok ()
          | .error .unknown => .error (.unknownE os_status)
          | .error e => .error (.unitE e)
        | .error e => .error (.formatE e)
      | .error e => .error (.codecE e)
    | .error e => .error (.audioE e)

/-- audio_unit::Error::as_os_status (src/src/error.rs lines 273-275):
the enum discriminant as an OSStatus. `Unknown` carries no explicit
discriminant, so Rust assigns it the previous one plus 1
(Unauthorized = -10847, hence Unknown = -10846). -/
def audio_unit_as_os_status (e : AudioUnitErr) : Int :=
  match e with
  | .invalidProperty => kAudioUnitErr_InvalidProperty
  | .invalidParameter => kAudioUnitErr_InvalidParameter
  | .invalidElement => kAudioUnitErr_InvalidElement
  | .noConnection => kAudioUnitErr_NoConnection
  | .failedInitialization => kAudioUnitErr_FailedInitialization
  | .tooManyFramesToProcess => kAudioUnitErr_TooManyFramesToProcess
  | .invalidFile => kAudioUnitErr_InvalidFile
  | .formatNotSupported => kAudioUnitErr_FormatNotSupported
  | .uninitialized => kAudioUnitErr_Uninitialized
  | .invalidScope => kAudioUnitErr_InvalidScope
  | .propertyNotWritable => kAudioUnitErr_PropertyNotWritable
  | .cannotDoInCurrentContext => kAudioUnitErr_CannotDoInCurrentContext
  | .invalidPropertyValue => kAudioUnitErr_InvalidPropertyValue
  | .propertyNotInUse => kAudioUnitErr_PropertyNotInUse
  | .initialized => kAudioUnitErr_Initialized
  | .invalidOfflineRender => kAudioUnitErr_InvalidOfflineRender
  | .unauthorized => kAudioUnitErr_Unauthorized
  | .unknown => -10846

/-- audio::Error::as_os_status (src/src/error.rs lines 48-50): the enum
discriminant (Unknown = MemFull + 1 = -107). -/
def audio_as_os_status (e : AudioErr) : Int :=
  match e with
  | .unimplemented => kAudio_UnimplementedError
  | .fileNotFound => kAudio_FileNotFoundError
  | .filePermission => kAudio_FilePermissionError
  | .tooManyFilesOpen => kAudio_TooManyFilesOpenError
  | .badFilePath => kAudio_BadFilePathError
  | .param => kAudio_ParamError
  | .memFull => kAudio_MemFullError
  | .unknown => -107

/-- audio_codec::Error::as_os_status (src/src/error.rs lines 114-116):
the enum discriminant (Unknown = BadData + 1). -/
def audio_codec_as_os_status (e : AudioCodecErr) : Int :=
  match e with
  | .unspecified => kAudioCodecUnspecifiedError
  | .unknownProperty => kAudioCodecUnknownPropertyError
  | .badPropertySize => kAudioCodecBadPropertySizeError
  | .illegalOperation => kAudioCodecIllegalOperationError
  | .unsupportedFormat => kAudioCodecUnsupportedFormatError
  | .state => kAudioCodecStateError
  | .notEnoughBufferSpace => kAudioCodecNotEnoughBufferSpaceError
  | .badData => kAudioCodecBadDataError
  | .unknown => 0x62616462

/-- Error::as_os_status (src/src/error.rs lines 361-374). The old
render_callback.rs spells this conversion `to_os_status`; the error.rs in
src/ spells it `as_os_status` with identical Unspecified mapping. Note:
the `AudioFormat` wrapper is absent from the source match and falls into
the catch-all arm. -/
def error_as_os_status (e : Error) : Int :=
  match e with
  | .unspecified => kAudioServicesSystemSoundUnspecifiedError
  | .noMatchingDefaultAudioUnitFound => kAudioServicesSystemSoundUnspecifiedError
  | .renderCallbackBufferFormatDoesNotMatchAudioUnitStreamFormat =>
    kAudioServicesSystemSoundUnspecifiedError
  | .systemSoundClientMessageTimedOut => kAudioServicesSystemSoundClientTimedOutError
  | .audioE err => audio_as_os_status err
  | .codecE err => audio_codec_as_os_status err
  | .unitE err => audio_unit_as_os_status err
  | _ => kAudioServicesSystemSoundUnspecifiedError

/-- The `NOT_SUPPORTED` constant of StreamFormat::from_asbd
(src/src/audio_unit/stream_format.rs line 70). -/
def NOT_SUPPORTED : Error := .unitE .formatNotSupported

/-- StreamFormat::from_asbd (src/src/audio_unit/stream_format.rs
lines 69-100). -/
def from_asbd (asbd : AudioStreamBasicDescription) : Except Error StreamFormat :=
  match from_format_and_flag asbd.mFormatID asbd.mFormatFlags with
  | some (.linearPCM flags) =>
    match from_flags_and_bytes_per_frame flags asbd.mBytesPerFrame with
    | some sample_format =>
      .ok { sample_rate := asbd.mSampleRate
            flags := flags
            sample_format := sample_format
            channels := asbd.mChannelsPerFrame }
    | none => .error NOT_SUPPORTED
  | _ => .error NOT_SUPPORTED

/-- StreamFormat::to_asbd (src/src/audio_unit/stream_format.rs
lines 103-143). u32 casts and multiplications carry an explicit
`% 4294967296`. -/
def to_asbd (f : StreamFormat) : AudioStreamBasicDescription :=
  let format_and_flag := as_format_and_flag f.flags
  let flag := format_and_flag.2.getD 2147483648
  let non_interleaved := containsFlag f.flags IS_NON_INTERLEAVED
  let bytes_per_frame :=
    if non_interleaved then size_in_bytes f.sample_format % 4294967296
    else size_in_bytes f.sample_format % 4294967296 * f.channels % 4294967296
  let bytes_per_packet := bytes_per_frame * 1 % 4294967296
  let bits_per_channel :=
    if non_interleaved then bytes_per_frame * 8 % 4294967296
    else bytes_per_frame / f.channels * 8 % 4294967296
  { mSampleRate := f.sample_rate
    mFormatID := format_and_flag.1
    mFormatFlags := flag
    mBytesPerPacket := bytes_per_packet
    mFramesPerPacket := 1
    mBytesPerFrame := bytes_per_frame
    mChannelsPerFrame := f.channels
    mBitsPerChannel := bits_per_channel
    mReserved := 0 }

/-! ## Render-callback data wrappers
(src/src/audio_unit/render_callback.rs, module `data`) -/

/-- au::AudioBuffer: fields mNumberChannels, mDataByteSize (u32) and
mData (a raw pointer, modelled as a Nat identifier). -/
structure AudioBuffer where
  mNumberChannels : Nat
  mDataByteSize : Nat
  mData : Nat
deriving DecidableEq

/-- au::AudioBufferList: mNumberBuffers (u32) and the fixed-size
`[AudioBuffer; 128]` array `mBuffers`, modelled as a list (theorems that
depend on the fixed capacity hypothesise length 128). -/
structure AudioBufferList where
  mNumberBuffers : Nat
  mBuffers : List AudioBuffer
deriving DecidableEq

/-- data::NonInterleaved (src/src/audio_unit/render_callback.rs
lines 124-134), minus the `PhantomData<S>` marker: the copied 128-element
buffer array, the advertised buffer count and the per-channel frame
count. -/
structure NonInterleaved where
  buffers : List AudioBuffer
  num_buffers : Nat
  frames : Nat
deriving DecidableEq

/-- A channel slice yielded by the `Channels` / `ChannelsMut` iterators
(src/src/audio_unit/render_callback.rs lines 152-174): the slice's data
pointer and its element length `mNumberChannels * frames`. -/
structure ChannelSlice where
  ptr : Nat
  len : Nat
deriving DecidableEq

/-- NonInterleaved::channels (src/src/audio_unit/render_callback.rs
lines 179-185): `self.buffers.iter().take(self.num_buffers)`, each buffer
viewed as a slice of `mNumberChannels * frames` samples. -/
def channels (v : NonInterleaved) : List ChannelSlice :=
  (v.buffers.take v.num_buffers).map
    (fun b => { ptr := b.mData, len := b.mNumberChannels * v.frames })

/-- NonInterleaved::channels_mut (src/src/audio_unit/render_callback.rs
lines 188-194): identical iteration, yielding mutable slices. -/
def channels_mut (v : NonInterleaved) : List ChannelSlice :=
  (v.buffers.take v.num_buffers).map
    (fun b => { ptr := b.mData, len := b.mNumberChannels * v.frames })

/-- NonInterleaved::from_input_proc_args
(src/src/audio_unit/render_callback.rs lines 210-221): copies the
128-element buffer array and records `mNumberBuffers` and the frame
count. -/
def from_input_proc_args (frames : Nat) (io_data : AudioBufferList) : NonInterleaved :=
  { buffers := io_data.mBuffers
    num_buffers := io_data.mNumberBuffers
    frames := frames }

/-- Raw::does_stream_format_match (src/src/audio_unit/render_callback.rs
lines 70-72): always true. -/
def raw_does_stream_format_match (_ : StreamFormat) : Bool := true

/-- NonInterleaved::does_stream_format_match
(src/src/audio_unit/render_callback.rs lines 202-207). The
`IS_NON_INTERLEAVED` flag test is commented out in the source (with a TODO
noting the flag is never set); only the sample-format flag check remains. -/
def non_interleaved_does_stream_format_match (s : SampleFormat) (format : StreamFormat) : Bool :=
  does_match_flags s format.flags

/-! ## The callback-registration state machine
(src/src/audio_unit/render_callback.rs lines 382-464)

The audio unit's callback-relevant state: `maybe_callback` is the stored
raw pointer (`Option<*mut InputProcFnWrapper>`, see also the struct field
in src/src/audio_unit/mod.rs line 192). To reason about allocation and
release of the boxed closures we additionally record which wrapper boxes
are currently live (allocated by `Box::into_raw`, not yet reclaimed) and
which have been reclaimed and dropped (`Box::from_raw`), most recent
first; `next_ptr` is a fresh-address supply. -/

structure RCState where
  maybe_callback : Option Nat
  next_ptr : Nat
  live : List Nat
  dropped : List Nat
deriving DecidableEq

/-- The external OS collaborators consulted by `set_render_callback`: the
result of the `stream_format()` property query, and the OSStatus returned
by the `kAudioUnitProperty_SetRenderCallback` property-set call. -/
structure RCEnv where
  stream_format_result : Except Error StreamFormat
  set_property_status : Int

/-- AudioUnit::free_render_callback
(src/src/audio_unit/render_callback.rs lines 454-462, likewise
src/src/audio_unit/mod.rs lines 234-242): `maybe_callback.take()`; if a
pointer was stored, reclaim the box (`Box::from_raw`) and drop it. -/
def free_render_callback (s : RCState) : RCState :=
  match s.maybe_callback with
  | none => s
  | some callback =>
    { maybe_callback := none
      next_ptr := s.next_ptr
      live := s.live.erase callback
      dropped := callback :: s.dropped }

/-- AudioUnit::set_render_callback
(src/src/audio_unit/render_callback.rs lines 385-451). `m` stands for the
data variant's `D::does_stream_format_match`. Steps, in source order:
query the stream format (`try!`), check the format matches, box the
wrapper and leak it to a raw pointer (`Box::into_raw`), register it with
the OS property-set call (`try!`), free the previous callback, store the
new pointer. -/
def set_render_callback (m : StreamFormat → Bool) (env : RCEnv) (s : RCState) :
    Except Error Unit × RCState :=
  match env.stream_format_result with
  | .error e => (.error e, s)
  | .ok stream_format =>
    if !m stream_format then
      (.error .renderCallbackBufferFormatDoesNotMatchAudioUnitStreamFormat, s)
    else
      let input_proc_fn_wrapper_ptr := s.next_ptr
      let s1 : RCState :=
        { s with next_ptr := s.next_ptr + 1, live := input_proc_fn_wrapper_ptr :: s.live }
      match error_from_os_status env.set_property_status with
      | .error e => (.error e, s1)
      | .ok () =>
        let s2 := free_render_callback s1
        (.ok (), { s2 with maybe_callback := some input_proc_fn_wrapper_ptr })

/-- `n` successive calls to `set_render_callback` with the same data
variant against the same OS responses. -/
def replaceN (m : StreamFormat → Bool) (env : RCEnv) : Nat → RCState → RCState
  | 0, s => s
  | n + 1, s => replaceN m env n (set_render_callback m env s).2

/-- The stored callback pointer, if any, is a live box. -/
def attachedIsLive (s : RCState) : Bool :=
  match s.maybe_callback with
  | none => true
  | some c => s.live.contains c

/-- Well-formedness of the callback bookkeeping: live and dropped boxes
are distinct, below the fresh-pointer supply, disjoint from each other,
and the stored callback pointer (if any) is a live box. -/
def WFState (s : RCState) : Prop :=
  s.live.Nodup ∧ s.dropped.Nodup ∧
  (∀ x ∈ s.live, x < s.next_ptr) ∧ (∀ x ∈ s.dropped, x < s.next_ptr) ∧
  (∀ x ∈ s.live, x ∉ s.dropped) ∧
  attachedIsLive s = true

instance (s : RCState) : Decidable (WFState s) := by
  unfold WFState
  infer_instance

/-! ## Teardown (src/src/audio_unit/mod.rs lines 360-374)

`impl Drop for AudioUnit`: stop the unit and uninitialize it, panicking
if either OS call reports an error, then free the render callback. -/

/-- The OS responses consulted during Drop: the OSStatus values of
`AudioOutputUnitStop` and `AudioUnitUninitialize`. -/
structure TeardownEnv where
  stop_status : Int
  uninit_status : Int
deriving DecidableEq

/-- Outcome of running `Drop::drop`: either a panic escaped, or teardown
finished with the resulting callback state. -/
inductive TeardownOutcome where
  | panicked
  | finished (s : RCState)
deriving DecidableEq

/-- impl Drop for AudioUnit (src/src/audio_unit/mod.rs lines 360-374):
`if let Err(err) = self.stop() { panic!(..) }`, then the same for
`AudioUnitUninitialize`, then `self.free_render_callback()`. -/
def drop_audio_unit (env : TeardownEnv) (s : RCState) : TeardownOutcome :=
  match error_from_os_status env.stop_status with
  | .error _ => .panicked
  | .ok () =>
    match error_from_os_status env.uninit_status with
    | .error _ => .panicked
    | .ok () => .finished (free_render_callback s)

/-! ## Trampoline status mapping -/

/-- The status mapping inside the `input_proc_fn` closure built by
set_render_callback (src/src/audio_unit/render_callback.rs lines 421-424):
`Ok(()) => 0`, `Err(()) => error::Error::Unspecified.to_os_status()`. -/
def input_proc_fn_status (r : Except Unit Unit) : Int :=
  match r with
  | .ok () => 0
  | .error () => error_as_os_status .unspecified

/-- The status mapping inside the legacy `input_proc` of
src/src/audio_unit/mod.rs (lines 410-417): `Ok(()) => 0`,
`Err(description) => AudioUnitError::NoConnection as OSStatus` (the error
payload is only logged). -/
def legacy_input_proc_status (r : Except Unit Unit) : Int :=
  match r with
  | .ok () => 0
  | .error () => audio_unit_as_os_status .noConnection

/-- The three ways a single invocation of the user closure can end. -/
inductive CallOutcome where
  | ok
  | err
  | panicked
deriving DecidableEq

/-- One invocation of the extern "C" `input_proc` trampoline
(src/src/audio_unit/render_callback.rs lines 467-483) together with the
wrapped `input_proc_fn` closure (lines 403-425), as a function of the
closure's outcome. Neither function contains any panic-catching
(`catch_unwind`), so a panic in the closure unwinds through the `match`
and through the extern "C" frame; the unwind is the `.error ()` result,
a returned OSStatus is the `.ok` result. -/
def input_proc_invoke (o : CallOutcome) : Except Unit Int :=
  match o with
  | .ok => .ok (input_proc_fn_status (.ok ()))
  | .err => .ok (input_proc_fn_status (.error ()))
  | .panicked => .error ()

/-! ## The supported round-trip domain for C3 -/

/-- A native descriptor in the non-interleaved part of the supported set:
Linear PCM, flags within the declared bit set, packed, non-interleaved, a
recognised float/signed width pairing, and the derived fields consistent
(single-frame packets, bits = 8 × bytes, reserved zero). -/
def supportedNonInterleaved (x : AudioStreamBasicDescription) : Prop :=
  x.mFormatID = kAudioFormatLinearPCM ∧
  x.mFormatFlags &&& allLinearPcmBits = x.mFormatFlags ∧
  containsFlag x.mFormatFlags IS_PACKED = true ∧
  containsFlag x.mFormatFlags IS_NON_INTERLEAVED = true ∧
  ((containsFlag x.mFormatFlags IS_FLOAT = true ∧ x.mBytesPerFrame = 4) ∨
   (containsFlag x.mFormatFlags IS_FLOAT = false ∧
    containsFlag x.mFormatFlags IS_SIGNED_INTEGER = true ∧
    (x.mBytesPerFrame = 1 ∨ x.mBytesPerFrame = 2 ∨ x.mBytesPerFrame = 4))) ∧
  x.mBytesPerPacket = x.mBytesPerFrame ∧
  x.mFramesPerPacket = 1 ∧
  x.mBitsPerChannel = 8 * x.mBytesPerFrame ∧
  x.mReserved = 0

instance (x : AudioStreamBasicDescription) : Decidable (supportedNonInterleaved x) := by
  unfold supportedNonInterleaved
  infer_instance

/-! ## Concrete inputs used by the claim theorems -/

/-- An interleaved, packed, native-endian stereo I16 descriptor: flags =
IS_SIGNED_INTEGER ||| IS_PACKED = 12, 4 bytes per frame (2 bytes × 2
channels), 16 bits per channel. -/
def exC3 : AudioStreamBasicDescription :=
  { mSampleRate := 0, mFormatID := 1819304813, mFormatFlags := 12,
    mBytesPerPacket := 4, mFramesPerPacket := 1, mBytesPerFrame := 4,
    mChannelsPerFrame := 2, mBitsPerChannel := 16, mReserved := 0 }

/-- The stream format that from_asbd actually infers from exC3: sample
format I32 (not I16), flags 12, 2 channels. -/
def exC3sf : StreamFormat :=
  { sample_rate := 0, sample_format := .I32, flags := 12, channels := 2 }

/-- A non-interleaved, packed F32 stereo descriptor: flags = IS_FLOAT |||
IS_PACKED ||| IS_NON_INTERLEAVED = 41. -/
def exC3good : AudioStreamBasicDescription :=
  { mSampleRate := 0, mFormatID := 1819304813, mFormatFlags := 41,
    mBytesPerPacket := 4, mFramesPerPacket := 1, mBytesPerFrame := 4,
    mChannelsPerFrame := 2, mBitsPerChannel := 32, mReserved := 0 }

/-- A descriptor whose format identifier is AC3 (1633889587), not
Linear PCM. -/
def exC3ac3 : AudioStreamBasicDescription :=
  { mSampleRate := 0, mFormatID := 1633889587, mFormatFlags := 0,
    mBytesPerPacket := 0, mFramesPerPacket := 0, mBytesPerFrame := 4,
    mChannelsPerFrame := 2, mBitsPerChannel := 32, mReserved := 0 }

/-- A Linear PCM descriptor without the IS_PACKED flag (flags = IS_FLOAT
only). -/
def exC3unpacked : AudioStreamBasicDescription :=
  { mSampleRate := 0, mFormatID := 1819304813, mFormatFlags := 1,
    mBytesPerPacket := 4, mFramesPerPacket := 1, mBytesPerFrame := 4,
    mChannelsPerFrame := 2, mBitsPerChannel := 32, mReserved := 0 }

/-- A stream format marked interleaved (IS_NON_INTERLEAVED absent): flags
= IS_FLOAT ||| IS_PACKED = 9. -/
def exC4 : StreamFormat :=
  { sample_rate := 0, sample_format := .F32, flags := 9, channels := 2 }

/-- The same float/signed bits as exC4 but marked non-interleaved: flags
= IS_FLOAT ||| IS_PACKED ||| IS_NON_INTERLEAVED = 41. -/
def exC4b : StreamFormat :=
  { sample_rate := 0, sample_format := .F32, flags := 41, channels := 2 }

/-- A buffer list whose native structure advertises 2 buffers in its
128-slot array. -/
def exC5list : AudioBufferList :=
  { mNumberBuffers := 2,
    mBuffers := List.replicate 128 { mNumberChannels := 1, mDataByteSize := 2048, mData := 4096 } }

/-- A registered stream format with channel count 1 (non-interleaved F32
mono, flags = 41). -/
def exC5format : StreamFormat :=
  { sample_rate := 0, sample_format := .F32, flags := 41, channels := 1 }

/-- A stream format whose flags mark float data (IS_FLOAT ||| IS_PACKED =
9), so an I16 data variant does not match it. -/
def exC1fmt : StreamFormat :=
  { sample_rate := 0, sample_format := .F32, flags := 9, channels := 2 }

/-- OS responses for C1: the stream-format query succeeds with exC1fmt. -/
def exC1env : RCEnv :=
  { stream_format_result := .ok exC1fmt, set_property_status := 0 }

/-- A unit state with one attached callback (box 7 live, box 2 already
dropped earlier). -/
def exC1state : RCState :=
  { maybe_callback := some 7, next_ptr := 9, live := [7], dropped := [2] }

/-- A stream format accepted by the C2 witness's data variant. -/
def exC2fmt : StreamFormat :=
  { sample_rate := 0, sample_format := .F32, flags := 41, channels := 2 }

/-- OS responses for C2: format query succeeds, property-set returns 0. -/
def exC2env : RCEnv :=
  { stream_format_result := .ok exC2fmt, set_property_status := 0 }

/-- A well-formed unit state with callback box 3 attached. -/
def exC2state : RCState :=
  { maybe_callback := some 3, next_ptr := 5, live := [3], dropped := [] }

/-- A unit state with no attached callback. -/
def exC8detached : RCState :=
  { maybe_callback := none, next_ptr := 0, live := [], dropped := [] }

/-- A unit state with callback box 3 attached. -/
def exC8attached : RCState :=
  { maybe_callback := some 3, next_ptr := 5, live := [3], dropped := [] }

/-! ## Helper lemmas -/

theorem ite_err {α β : Type} {c : Prop} [Decidable c] (a : β) (r : Except β α)
    (h : ∃ e, r = .error e) : ∃ e, (if c then Except.error a else r) = .error e := by
  by_cases hc : c
  · rw [if_pos hc]; exact ⟨a, rfl⟩
  · rw [if_neg hc]; exact h

theorem audio_from_os_status_err (s : Int) (h : s ≠ 0) :
    ∃ e, audio_from_os_status s = .error e := by
  unfold audio_from_os_status
  rw [if_neg h]
  repeat first
  | exact ⟨_, rfl⟩
  | apply ite_err

theorem audio_codec_from_os_status_err (s : Int) (h : s ≠ 0) :
    ∃ e, audio_codec_from_os_status s = .error e := by
  unfold audio_codec_from_os_status
  rw [if_neg h]
  repeat first
  | exact ⟨_, rfl⟩
  | apply ite_err

theorem audio_format_from_os_status_err (s : Int) (h : s ≠ 0) :
    ∃ e, audio_format_from_os_status s = .error e := by
  unfold audio_format_from_os_status
  rw [if_neg h]
  repeat first
  | exact ⟨_, rfl⟩
  | apply ite_err

theorem audio_unit_from_os_status_err (s : Int) :
    ∃ e, audio_unit_from_os_status s = .error e := by
  unfold audio_unit_from_os_status
  repeat first
  | exact ⟨_, rfl⟩
  | apply ite_err

theorem error_from_os_status_zero : error_from_os_status 0 = .ok () := rfl

/-! ## Claim theorems -/

/-- C10: the submodule conversion audio_unit::Error::from_os_status never
returns Ok for any OSStatus: every status, including the success value 0,
maps to an Err (0 maps to Err(Unknown)); the top-level
Error::from_os_status, in contrast, returns Ok exactly when the status
is 0. -/
theorem c10_from_os_status_ok_iff :
    (∀ s : Int, ∃ e, audio_unit_from_os_status s = .error e) ∧
    audio_unit_from_os_status 0 = .error .unknown ∧
    (∀ s : Int, (error_from_os_status s).isOk = decide (s = 0)) := by
  refine ⟨audio_unit_from_os_status_err, by rfl, ?_⟩
  intro s
  by_cases h : s = 0
  · subst h; rfl
  · simp only [decide_eq_false h]
    unfold error_from_os_status
    rw [if_neg h]
    split_ifs with h1 h2
    · rfl
    · rfl
    · obtain ⟨e, he⟩ := audio_from_os_status_err s h
      rw [he]
      cases e <;> try rfl
      obtain ⟨e2, he2⟩ := audio_codec_from_os_status_err s h
      rw [he2]
      cases e2 <;> try rfl
      obtain ⟨e3, he3⟩ := audio_format_from_os_status_err s h
      rw [he3]
      cases e3 <;> try rfl
      obtain ⟨e4, he4⟩ := audio_unit_from_os_status_err s
      rw [he4]
      cases e4 <;> rfl

/-- C6 counterexample: the status-mapping step of the render callback
registered by set_render_callback maps a closure error to
Error::Unspecified's OS status (kAudioServicesSystemSoundUnspecifiedError,
-1500), which is not kAudioUnitErr_NoConnection (-10876) as the claim
states. -/
theorem c6_status_map_counterexample :
    input_proc_fn_status (.error ()) = kAudioServicesSystemSoundUnspecifiedError ∧
    input_proc_fn_status (.error ()) ≠ kAudioUnitErr_NoConnection := by
  exact ⟨rfl, by decide⟩

/-- C6 amended: both status mappings return 0 for Ok and a single fixed
error status for Err, and produce no other codes - but the fixed code of
the set_render_callback trampoline (render_callback.rs lines 421-424) is
kAudioServicesSystemSoundUnspecifiedError (-1500), while only the legacy
input_proc of mod.rs (lines 410-417) uses kAudioUnitErr_NoConnection
(-10876). -/
theorem c6_status_map_amended :
    (∀ r, input_proc_fn_status r = 0 ∨
      input_proc_fn_status r = kAudioServicesSystemSoundUnspecifiedError) ∧
    input_proc_fn_status (.ok ()) = 0 ∧
    input_proc_fn_status (.error ()) = kAudioServicesSystemSoundUnspecifiedError ∧
    (∀ r, legacy_input_proc_status r = 0 ∨
      legacy_input_proc_status r = kAudioUnitErr_NoConnection) ∧
    legacy_input_proc_status (.ok ()) = 0 ∧
    legacy_input_proc_status (.error ()) = kAudioUnitErr_NoConnection := by
  refine ⟨?_, rfl, rfl, ?_, rfl, rfl⟩ <;>
    rintro (⟨⟩ | ⟨⟩) <;> first
      | exact Or.inl rfl
      | exact Or.inr rfl

/-- C9 counterexample: a panic inside the user closure is not converted
into an error status code returned to the OS - the trampoline
(render_callback.rs lines 467-483) contains no panic-catching, so the
invocation ends in an unwind across the FFI boundary, not in any status. -/
theorem c9_panic_counterexample :
    input_proc_invoke CallOutcome.panicked = .error () ∧
    (input_proc_invoke CallOutcome.panicked).isOk = false :=
  ⟨rfl, rfl⟩

/-- C9 amended: the trampoline returns status 0 when the closure returns
Ok and the fixed Unspecified status when it returns Err, but performs no
panic-catching: a panic in the closure propagates as an unwind across the
extern "C" boundary instead of being converted to an error status. -/
theorem c9_trampoline_amended :
    input_proc_invoke CallOutcome.ok = .ok 0 ∧
    input_proc_invoke CallOutcome.err = .ok kAudioServicesSystemSoundUnspecifiedError ∧
    input_proc_invoke CallOutcome.panicked = .error () :=
  ⟨rfl, rfl, rfl⟩

/-- C4 counterexample: NonInterleaved's format check returns true for a
descriptor that is marked interleaved (the IS_NON_INTERLEAVED flag is
absent from flags = 9) whose sample format matches, contradicting the
claim that it returns true only for descriptors marked non-interleaved. -/
theorem c4_non_interleaved_match_counterexample :
    non_interleaved_does_stream_format_match .F32 exC4 = true ∧
    containsFlag exC4.flags IS_NON_INTERLEAVED = false := by
  decide

/-- C4 amended: NonInterleaved::does_stream_format_match returns exactly
the sample-format flag check (S::sample_format().does_match_flags): its
verdict depends only on the IS_FLOAT and IS_SIGNED_INTEGER bits and is
independent of the IS_NON_INTERLEAVED flag (the interleaving test is
commented out in the source); the Interleaved data variant does not exist
in the code. -/
theorem c4_non_interleaved_match_amended :
    ∀ (s : SampleFormat) (f g : StreamFormat),
      f.flags &&& (IS_FLOAT ||| IS_SIGNED_INTEGER) =
        g.flags &&& (IS_FLOAT ||| IS_SIGNED_INTEGER) →
      non_interleaved_does_stream_format_match s f =
        non_interleaved_does_stream_format_match s g ∧
      non_interleaved_does_stream_format_match s f = does_match_flags s f.flags := by
  intro s f g h
  refine ⟨?_, rfl⟩
  have key : ∀ c : Nat, (IS_FLOAT ||| IS_SIGNED_INTEGER) &&& c = c →
      f.flags &&& c = g.flags &&& c := by
    intro c hc
    calc f.flags &&& c
        = f.flags &&& ((IS_FLOAT ||| IS_SIGNED_INTEGER) &&& c) := by rw [hc]
      _ = f.flags &&& (IS_FLOAT ||| IS_SIGNED_INTEGER) &&& c := by rw [Nat.and_assoc]
      _ = g.flags &&& (IS_FLOAT ||| IS_SIGNED_INTEGER) &&& c := by rw [h]
      _ = g.flags &&& ((IS_FLOAT ||| IS_SIGNED_INTEGER) &&& c) := by rw [Nat.and_assoc]
      _ = g.flags &&& c := by rw [hc]
  have h1 : f.flags &&& IS_FLOAT = g.flags &&& IS_FLOAT := key IS_FLOAT (by decide)
  have h4 : f.flags &&& IS_SIGNED_INTEGER = g.flags &&& IS_SIGNED_INTEGER :=
    key IS_SIGNED_INTEGER (by decide)
  unfold non_interleaved_does_stream_format_match does_match_flags containsFlag
  rw [h1, h4]

/-- C4 amended witness: instantiated at F32 against flags 9 (interleaved)
and flags 41 (non-interleaved), which agree on the float/signed bits. -/
theorem c4_non_interleaved_match_amended_witness :
    non_interleaved_does_stream_format_match .F32 exC4 =
      non_interleaved_does_stream_format_match .F32 exC4b ∧
    non_interleaved_does_stream_format_match .F32 exC4 = does_match_flags .F32 exC4.flags :=
  c4_non_interleaved_match_amended .F32 exC4 exC4b (by decide)

set_option maxRecDepth 4000 in
/-- C5 counterexample: a NonInterleaved view built from a buffer list
advertising 2 buffers yields 2 channel slices even though the registered
stream format (which the view never consults) declares channel count 1 -
the iteration is capped by mNumberBuffers, not by the descriptor's
channel count. -/
theorem c5_channels_cap_counterexample :
    exC5format.channels = 1 ∧
    non_interleaved_does_stream_format_match .F32 exC5format = true ∧
    (channels (from_input_proc_args 512 exC5list)).length = 2 ∧
    ¬(channels (from_input_proc_args 512 exC5list)).length ≤ exC5format.channels := by
  decide

/-- C5 amended: channels() and channels_mut() yield exactly the first
min(mNumberBuffers, 128) buffers of the fixed 128-slot array as channel
slices - the cap is the advertised buffer count (and the array capacity),
not the stream format's registered channel count, and slots beyond the
advertised count are never exposed. -/
theorem c5_channels_cap_amended :
    ∀ (l : AudioBufferList) (frames : Nat), l.mBuffers.length = 128 →
      channels (from_input_proc_args frames l) =
        (l.mBuffers.take l.mNumberBuffers).map
          (fun b => { ptr := b.mData, len := b.mNumberChannels * frames }) ∧
      (channels (from_input_proc_args frames l)).length = min l.mNumberBuffers 128 ∧
      channels_mut (from_input_proc_args frames l) = channels (from_input_proc_args frames l) := by
  intro l frames h
  refine ⟨rfl, ?_, rfl⟩
  simp [channels, from_input_proc_args, h]

set_option maxRecDepth 4000 in
/-- C5 amended witness: instantiated at the 128-slot list advertising 2
buffers with 512 frames. -/
theorem c5_channels_cap_amended_witness :
    channels (from_input_proc_args 512 exC5list) =
      (exC5list.mBuffers.take exC5list.mNumberBuffers).map
        (fun b => { ptr := b.mData, len := b.mNumberChannels * 512 }) ∧
    (channels (from_input_proc_args 512 exC5list)).length = min exC5list.mNumberBuffers 128 ∧
    channels_mut (from_input_proc_args 512 exC5list) =
      channels (from_input_proc_args 512 exC5list) :=
  c5_channels_cap_amended exC5list 512 (by decide)

/-- C7: StreamFormat::to_asbd is a total function: for every stream
format with a positive channel count (and no u32 wrap-around in the
byte-per-frame product), it returns a descriptor with bytes_per_frame =
sample byte width x channel count when interleaved (byte width alone when
non-interleaved), bytes_per_packet = bytes_per_frame, frames_per_packet =
1, and bits_per_channel recovering 8 x byte width (the byte width divided
across channels when interleaved). -/
theorem c7_to_asbd_fields :
    ∀ f : StreamFormat, 1 ≤ f.channels →
      size_in_bytes f.sample_format * f.channels < 4294967296 →
      (to_asbd f).mBytesPerFrame =
        (if containsFlag f.flags IS_NON_INTERLEAVED then size_in_bytes f.sample_format
         else size_in_bytes f.sample_format * f.channels) ∧
      (to_asbd f).mBytesPerPacket = (to_asbd f).mBytesPerFrame ∧
      (to_asbd f).mFramesPerPacket = 1 ∧
      (to_asbd f).mBitsPerChannel = 8 * size_in_bytes f.sample_format := by
  rintro ⟨sr, sf, fl, ch⟩ h1 h2
  simp only at h1 h2
  have hszm : size_in_bytes sf % 4294967296 = size_in_bytes sf := by
    cases sf <;> decide
  have hmul : size_in_bytes sf * ch % 4294967296 = size_in_bytes sf * ch :=
    Nat.mod_eq_of_lt h2
  have hdiv : size_in_bytes sf * ch / ch = size_in_bytes sf :=
    Nat.mul_div_cancel _ h1
  have h8 : size_in_bytes sf * 8 % 4294967296 = 8 * size_in_bytes sf := by
    cases sf <;> decide
  simp only [to_asbd]
  cases hni : containsFlag fl IS_NON_INTERLEAVED
  · simp only [Bool.false_eq_true, if_false]
    refine ⟨?_, ?_, trivial, ?_⟩
    · rw [hszm]; exact hmul
    · rw [hszm, Nat.mul_one, hmul, hmul]
    · rw [hszm, hmul, hdiv, h8]
  · simp only [if_true]
    refine ⟨?_, ?_, trivial, ?_⟩
    · exact hszm
    · rw [hszm, Nat.mul_one, hszm]
    · rw [hszm, h8]

/-- C7 witness: the interleaved stereo I16 format (flags = 12, 2
channels) encodes to 4 bytes per frame and packet, single-frame packets
and 16 bits per channel. -/
theorem c7_to_asbd_fields_witness :
    (to_asbd { sample_rate := 0, sample_format := .I16, flags := 12, channels := 2 }).mBytesPerFrame =
      (if containsFlag ({ sample_rate := 0, sample_format := .I16, flags := 12, channels := 2 } : StreamFormat).flags IS_NON_INTERLEAVED then
        size_in_bytes ({ sample_rate := 0, sample_format := .I16, flags := 12, channels := 2 } : StreamFormat).sample_format
       else
        size_in_bytes ({ sample_rate := 0, sample_format := .I16, flags := 12, channels := 2 } : StreamFormat).sample_format *
          ({ sample_rate := 0, sample_format := .I16, flags := 12, channels := 2 } : StreamFormat).channels) ∧
    (to_asbd { sample_rate := 0, sample_format := .I16, flags := 12, channels := 2 }).mBytesPerPacket =
      (to_asbd { sample_rate := 0, sample_format := .I16, flags := 12, channels := 2 }).mBytesPerFrame ∧
    (to_asbd { sample_rate := 0, sample_format := .I16, flags := 12, channels := 2 }).mFramesPerPacket = 1 ∧
    (to_asbd { sample_rate := 0, sample_format := .I16, flags := 12, channels := 2 }).mBitsPerChannel =
      8 * size_in_bytes ({ sample_rate := 0, sample_format := .I16, flags := 12, channels := 2 } : StreamFormat).sample_format :=
  c7_to_asbd_fields { sample_rate := 0, sample_format := .I16, flags := 12, channels := 2 }
    (by decide) (by decide)

/-- C8 counterexample: unit teardown is not panic-free regardless of the
outcome of the underlying OS calls - when AudioOutputUnitStop returns
kAudio_ParamError (-50), Drop::drop panics. -/
theorem c8_teardown_counterexample :
    drop_audio_unit { stop_status := kAudio_ParamError, uninit_status := 0 } exC8detached =
      .panicked := rfl

/-- C8 amended: free_render_callback on a unit with no attached callback
is a no-op, calling it twice equals calling it once, and teardown is a
non-faulting no-op-after-release when the OS stop and uninitialize calls
succeed; when either OS call fails, Drop panics (see the
counterexample), so panic-freedom holds only for succeeding OS calls. -/
theorem c8_cleanup_amended :
    (∀ s : RCState, s.maybe_callback = none → free_render_callback s = s) ∧
    (∀ s : RCState, free_render_callback (free_render_callback s) = free_render_callback s) ∧
    (∀ (env : TeardownEnv) (s : RCState), env.stop_status = 0 → env.uninit_status = 0 →
      drop_audio_unit env s = .finished (free_render_callback s)) := by
  refine ⟨?_, ?_, ?_⟩
  · intro s h
    simp [free_render_callback, h]
  · intro s
    rcases hs : s.maybe_callback with _ | c
    · simp [free_render_callback, hs]
    · simp [free_render_callback, hs]
  · intro env s h1 h2
    unfold drop_audio_unit
    rw [h1, h2]
    rfl

/-- C8 amended witness: instantiated at a detached unit, an attached
unit, and succeeding OS calls. -/
theorem c8_cleanup_amended_witness :
    free_render_callback exC8detached = exC8detached ∧
    free_render_callback (free_render_callback exC8attached) = free_render_callback exC8attached ∧
    drop_audio_unit { stop_status := 0, uninit_status := 0 } exC8attached =
      .finished (free_render_callback exC8attached) :=
  ⟨c8_cleanup_amended.1 exC8detached rfl,
   c8_cleanup_amended.2.1 exC8attached,
   c8_cleanup_amended.2.2 { stop_status := 0, uninit_status := 0 } exC8attached rfl rfl⟩

/-- C1: if the configured stream format is successfully read and the data
variant's format check rejects it, set_render_callback returns the
RenderCallbackBufferFormatDoesNotMatchAudioUnitStreamFormat error and
leaves the unit state completely unchanged: the stored callback pointer,
the live boxes and the dropped boxes all stay as they were. -/
theorem c1_set_render_callback_format_mismatch :
    ∀ (m : StreamFormat → Bool) (env : RCEnv) (s : RCState) (fmt : StreamFormat),
      env.stream_format_result = .ok fmt → m fmt = false →
      set_render_callback m env s =
        (.error .renderCallbackBufferFormatDoesNotMatchAudioUnitStreamFormat, s) := by
  intro m env s fmt hf hm
  unfold set_render_callback
  rw [hf]
  simp [hm]

/-- C1 witness: an I16 NonInterleaved data variant against a unit whose
configured format carries float flags; the call fails with the format
mismatch error and the state (callback box 7 attached) is untouched. -/
theorem c1_set_render_callback_format_mismatch_witness :
    set_render_callback (non_interleaved_does_stream_format_match .I16) exC1env exC1state =
      (.error .renderCallbackBufferFormatDoesNotMatchAudioUnitStreamFormat, exC1state) :=
  c1_set_render_callback_format_mismatch (non_interleaved_does_stream_format_match .I16)
    exC1env exC1state exC1fmt rfl (by decide)

/-! Helper lemmas for C2. -/

theorem set_render_callback_success_eq (m : StreamFormat → Bool) (env : RCEnv)
    (fmt : StreamFormat) (s : RCState) (q : Nat)
    (hf : env.stream_format_result = .ok fmt) (hm : m fmt = true)
    (hp : env.set_property_status = 0) (hq : s.maybe_callback = some q) :
    set_render_callback m env s =
      (.ok (), { maybe_callback := some s.next_ptr, next_ptr := s.next_ptr + 1,
                 live := (s.next_ptr :: s.live).erase q, dropped := q :: s.dropped }) := by
  unfold set_render_callback
  rw [hf, hp]
  simp [hm, error_from_os_status_zero, free_render_callback, hq]

theorem wf_step (m : StreamFormat → Bool) (env : RCEnv) (fmt : StreamFormat)
    (s : RCState) (q : Nat)
    (hf : env.stream_format_result = .ok fmt) (hm : m fmt = true)
    (hp : env.set_property_status = 0) (hwf : WFState s) (hq : s.maybe_callback = some q) :
    WFState (set_render_callback m env s).2 ∧
    (set_render_callback m env s).2.maybe_callback = some s.next_ptr ∧
    (set_render_callback m env s).2.dropped = q :: s.dropped := by
  obtain ⟨hln, hdn, hlb, hdb, hdisj, hal⟩ := hwf
  have hqlive : q ∈ s.live := by
    unfold attachedIsLive at hal
    rw [hq] at hal
    simpa using hal
  have hqlt : q < s.next_ptr := hlb q hqlive
  have hfresh : s.next_ptr ∉ s.live := fun hmem => absurd (hlb _ hmem) (lt_irrefl _)
  have hconsnd : (s.next_ptr :: s.live).Nodup := List.nodup_cons.2 ⟨hfresh, hln⟩
  have hqnd : q ∉ s.dropped := hdisj q hqlive
  rw [set_render_callback_success_eq m env fmt s q hf hm hp hq]
  dsimp only
  refine ⟨⟨?_, ?_, ?_, ?_, ?_, ?_⟩, rfl, rfl⟩
  · exact hconsnd.erase q
  · exact List.nodup_cons.2 ⟨hqnd, hdn⟩
  · intro x hx
    show x < s.next_ptr + 1
    have hx2 : x ∈ s.next_ptr :: s.live := List.mem_of_mem_erase hx
    rcases List.mem_cons.1 hx2 with rfl | hx3
    · omega
    · have := hlb x hx3; omega
  · intro x hx
    show x < s.next_ptr + 1
    rcases List.mem_cons.1 hx with rfl | hx2
    · omega
    · have := hdb x hx2; omega
  · intro x hx
    have hxq : x ≠ q ∧ x ∈ s.next_ptr :: s.live := (hconsnd.mem_erase_iff).1 hx
    intro hxd
    rcases List.mem_cons.1 hxd with hxq2 | hxd2
    · exact hxq.1 hxq2
    · rcases List.mem_cons.1 hxq.2 with rfl | hx3
      · exact absurd (hdb _ hxd2) (lt_irrefl _)
      · exact hdisj x hx3 hxd2
  · unfold attachedIsLive
    exact List.elem_eq_true_of_mem
      ((List.mem_erase_of_ne (by omega)).2 (List.mem_cons_self _ _))

theorem replaceN_wf (m : StreamFormat → Bool) (env : RCEnv) (fmt : StreamFormat)
    (hf : env.stream_format_result = .ok fmt) (hm : m fmt = true)
    (hp : env.set_property_status = 0) :
    ∀ (n : Nat) (s : RCState) (q : Nat), WFState s → s.maybe_callback = some q →
      WFState (replaceN m env n s) ∧
      (replaceN m env n s).dropped.length = s.dropped.length + n := by
  intro n
  induction n with
  | zero =>
    intro s q hwf hq
    exact ⟨hwf, rfl⟩
  | succ k ih =>
    intro s q hwf hq
    obtain ⟨hwf1, hmb1, hdr1⟩ := wf_step m env fmt s q hf hm hp hwf hq
    obtain ⟨hwf2, hlen2⟩ := ih (set_render_callback m env s).2 s.next_ptr hwf1 hmb1
    refine ⟨hwf2, ?_⟩
    show (replaceN m env k (set_render_callback m env s).2).dropped.length =
      s.dropped.length + (k + 1)
    rw [hlen2, hdr1]
    simp only [List.length_cons]
    omega

/-- C2: a successful set_render_callback call on a unit with an attached
callback reclaims and drops the prior boxed closure exactly once (its
pointer moves from the live set to the dropped list with count 1, so it
is neither leaked nor double-freed) and stores the freshly boxed pointer
as the unit's single owned callback; after n successful replacements the
dropped list has grown by exactly n and stays duplicate-free, so each of
the n prior closures was dropped exactly once. -/
theorem c2_set_render_callback_replacement :
    ∀ (m : StreamFormat → Bool) (env : RCEnv) (fmt : StreamFormat) (s : RCState) (q n : Nat),
      env.stream_format_result = .ok fmt → m fmt = true → env.set_property_status = 0 →
      WFState s → s.maybe_callback = some q →
      (set_render_callback m env s).1 = .ok () ∧
      (set_render_callback m env s).2.maybe_callback = some s.next_ptr ∧
      (set_render_callback m env s).2.dropped = q :: s.dropped ∧
      (set_render_callback m env s).2.dropped.count q = 1 ∧
      q ∉ (set_render_callback m env s).2.live ∧
      s.next_ptr ∈ (set_render_callback m env s).2.live ∧
      (replaceN m env n s).dropped.length = s.dropped.length + n ∧
      (replaceN m env n s).dropped.Nodup := by
  intro m env fmt s q n hf hm hp hwf hq
  obtain ⟨hln, hdn, hlb, hdb, hdisj, hal⟩ := hwf
  have hwf2 : WFState s := ⟨hln, hdn, hlb, hdb, hdisj, hal⟩
  have hqlive : q ∈ s.live := by
    unfold attachedIsLive at hal
    rw [hq] at hal
    simpa using hal
  have hqnd : q ∉ s.dropped := hdisj q hqlive
  have hqlt : q < s.next_ptr := hlb q hqlive
  have heq := set_render_callback_success_eq m env fmt s q hf hm hp hq
  have hnodup_cons : (s.next_ptr :: s.live).Nodup :=
    List.nodup_cons.2 ⟨fun hmem => absurd (hlb _ hmem) (lt_irrefl _), hln⟩
  obtain ⟨hrwf, hrlen⟩ := replaceN_wf m env fmt hf hm hp n s q hwf2 hq
  refine ⟨?_, ?_, ?_, ?_, ?_, ?_, hrlen, hrwf.2.1⟩
  · rw [heq]
  · rw [heq]
  · rw [heq]
  · rw [heq]
    show (q :: s.dropped).count q = 1
    rw [List.count_cons_self, List.count_eq_zero.2 hqnd]
  · rw [heq]
    show q ∉ (s.next_ptr :: s.live).erase q
    intro hmem
    exact ((hnodup_cons.mem_erase_iff).1 hmem).1 rfl
  · rw [heq]
    show s.next_ptr ∈ (s.next_ptr :: s.live).erase q
    exact (List.mem_erase_of_ne (by omega)).2 (List.mem_cons_self _ _)

/-- C2 witness: the Raw data variant (whose format check accepts every
format) replacing callback box 3 on a well-formed unit; one call drops
box 3 exactly once and stores box 5, and 2 successive successful calls
grow the dropped list by exactly 2 with no duplicates. -/
theorem c2_set_render_callback_replacement_witness :
    (set_render_callback raw_does_stream_format_match exC2env exC2state).1 = .ok () ∧
    (set_render_callback raw_does_stream_format_match exC2env exC2state).2.maybe_callback =
      some exC2state.next_ptr ∧
    (set_render_callback raw_does_stream_format_match exC2env exC2state).2.dropped =
      3 :: exC2state.dropped ∧
    (set_render_callback raw_does_stream_format_match exC2env exC2state).2.dropped.count 3 = 1 ∧
    3 ∉ (set_render_callback raw_does_stream_format_match exC2env exC2state).2.live ∧
    exC2state.next_ptr ∈ (set_render_callback raw_does_stream_format_match exC2env exC2state).2.live ∧
    (replaceN raw_does_stream_format_match exC2env 2 exC2state).dropped.length =
      exC2state.dropped.length + 2 ∧
    (replaceN raw_does_stream_format_match exC2env 2 exC2state).dropped.Nodup :=
  c2_set_render_callback_replacement raw_does_stream_format_match exC2env exC2fmt exC2state 3 2
    rfl rfl rfl (by decide) rfl

/-! Helper lemmas for C3. -/

theorem from_asbd_not_linear (x : AudioStreamBasicDescription)
    (h : x.mFormatID ≠ kAudioFormatLinearPCM) : from_asbd x = .error NOT_SUPPORTED := by
  unfold from_asbd from_format_and_flag
  rw [if_neg h]
  by_cases hc : otherAudioFormatIds.contains x.mFormatID
  · simp [hc]
  · simp [hc]

theorem truncate_and (f c : Nat) (hc : allLinearPcmBits &&& c = c) :
    f &&& allLinearPcmBits &&& c = f &&& c := by
  rw [Nat.and_assoc, hc]

theorem from_asbd_unpacked (x : AudioStreamBasicDescription)
    (h : containsFlag x.mFormatFlags IS_PACKED = false) :
    from_asbd x = .error NOT_SUPPORTED := by
  by_cases hid : x.mFormatID = kAudioFormatLinearPCM
  · have htr : containsFlag (x.mFormatFlags &&& allLinearPcmBits) IS_PACKED = false := by
      unfold containsFlag at h ⊢
      rw [truncate_and x.mFormatFlags IS_PACKED (by decide)]
      exact h
    unfold from_asbd from_format_and_flag from_flags_and_bytes_per_frame
    simp [hid, htr]
  · exact from_asbd_not_linear x hid

theorem to_asbd_ni (xsr : Nat) (sf : SampleFormat) (xfl xch : Nat)
    (hni : containsFlag xfl IS_NON_INTERLEAVED = true) :
    to_asbd { sample_rate := xsr, sample_format := sf, flags := xfl, channels := xch } =
      { mSampleRate := xsr, mFormatID := kAudioFormatLinearPCM, mFormatFlags := xfl,
        mBytesPerPacket := size_in_bytes sf, mFramesPerPacket := 1,
        mBytesPerFrame := size_in_bytes sf, mChannelsPerFrame := xch,
        mBitsPerChannel := size_in_bytes sf * 8, mReserved := 0 } := by
  cases sf
  all_goals
    unfold to_asbd as_format_and_flag
    simp [hni, size_in_bytes]

theorem roundtrip_supported :
    ∀ x, supportedNonInterleaved x → (from_asbd x).map to_asbd = .ok x := by
  rintro ⟨xsr, xid, xfl, xbpp, xfpp, xbpf, xch, xbits, xres⟩
    ⟨hid, hmask, hpk, hni, hcase, hbpp, hfpp, hbits, hres⟩
  dsimp only at hid hmask hpk hni hcase hbpp hfpp hbits hres
  subst hbpp hfpp hbits hres
  have h2 : from_format_and_flag xid xfl = some (.linearPCM xfl) := by
    unfold from_format_and_flag
    rw [if_pos hid, hmask]
  rcases hcase with ⟨hfl, hb⟩ | ⟨hfl, hsi, hb⟩
  · subst hb
    have h1 : from_flags_and_bytes_per_frame xfl 4 = some .F32 := by
      unfold from_flags_and_bytes_per_frame
      rw [hpk, hfl]
      rfl
    simp only [from_asbd, h2, h1, Except.map]
    rw [to_asbd_ni xsr .F32 xfl xch hni]
    simp [hid, size_in_bytes]
  · rcases hb with rfl | rfl | rfl
    · have h1 : from_flags_and_bytes_per_frame xfl 1 = some .I8 := by
        unfold from_flags_and_bytes_per_frame
        rw [hpk, hfl, hsi]
        rfl
      simp only [from_asbd, h2, h1, Except.map]
      rw [to_asbd_ni xsr .I8 xfl xch hni]
      simp [hid, size_in_bytes]
    · have h1 : from_flags_and_bytes_per_frame xfl 2 = some .I16 := by
        unfold from_flags_and_bytes_per_frame
        rw [hpk, hfl, hsi]
        rfl
      simp only [from_asbd, h2, h1, Except.map]
      rw [to_asbd_ni xsr .I16 xfl xch hni]
      simp [hid, size_in_bytes]
    · have h1 : from_flags_and_bytes_per_frame xfl 4 = some .I32 := by
        unfold from_flags_and_bytes_per_frame
        rw [hpk, hfl, hsi]
        rfl
      simp only [from_asbd, h2, h1, Except.map]
      rw [to_asbd_ni xsr .I32 xfl xch hni]
      simp [hid, size_in_bytes]

/-- C3 counterexample: the interleaved, packed, native-endian stereo I16
descriptor exC3 (a valid SampleFormat x interleaving combination, so in
the claim's supported set) is not rejected but silently mis-inferred:
from_asbd passes mBytesPerFrame = 4 to the sample-format inference, which
yields I32, and the round trip then produces mBytesPerFrame = 8 and
mBitsPerChannel = 32, so to_asbd(from_asbd(exC3)) differs from exC3. -/
theorem c3_roundtrip_counterexample :
    from_asbd exC3 = .ok exC3sf ∧
    to_asbd exC3sf ≠ exC3 ∧
    from_asbd exC3 ≠ .error NOT_SUPPORTED := by
  refine ⟨rfl, ?_, ?_⟩
  · intro h
    have h2 : (to_asbd exC3sf).mBytesPerFrame = exC3.mBytesPerFrame := by rw [h]
    exact absurd h2 (by decide)
  · intro h
    have hok : from_asbd exC3 = Except.ok exC3sf := rfl
    rw [hok] at h
    exact Except.noConfusion h

/-- C3 amended: the lossless round trip through from_asbd/to_asbd holds
for the non-interleaved part of the supported set (Linear PCM, packed,
declared flag bits, recognised float/signed byte width, consistent
derived fields), and ingestion of a descriptor whose format identifier is
not Linear PCM, or whose flags are not packed, is rejected with
FormatNotSupported; interleaved multi-channel descriptors fall outside
the round-trip domain because from_asbd feeds mBytesPerFrame (the whole
frame width) to the per-sample width inference (see the
counterexample). -/
theorem c3_roundtrip_amended :
    (∀ x, supportedNonInterleaved x → (from_asbd x).map to_asbd = .ok x) ∧
    (∀ x, x.mFormatID ≠ kAudioFormatLinearPCM → from_asbd x = .error NOT_SUPPORTED) ∧
    (∀ x, containsFlag x.mFormatFlags IS_PACKED = false →
      from_asbd x = .error NOT_SUPPORTED) :=
  ⟨roundtrip_supported, from_asbd_not_linear, from_asbd_unpacked⟩

/-- C3 amended witness: the non-interleaved packed F32 stereo descriptor
round-trips exactly; an AC3 descriptor and an unpacked Linear PCM
descriptor are rejected with FormatNotSupported. -/
theorem c3_roundtrip_amended_witness :
    (from_asbd exC3good).map to_asbd = .ok exC3good ∧
    from_asbd exC3ac3 = .error NOT_SUPPORTED ∧
    from_asbd exC3unpacked = .error NOT_SUPPORTED :=
  ⟨c3_roundtrip_amended.1 exC3good ⟨rfl, rfl, rfl, rfl, Or.inl ⟨rfl, rfl⟩, rfl, rfl, rfl, rfl⟩,
   c3_roundtrip_amended.2.1 exC3ac3 (by decide),
   c3_roundtrip_amended.2.2 exC3unpacked rfl⟩

end CoreaudioRs
